import Mathlib

/-!
Verification of the Seatsurfing plugin (src/clawdbot/index.ts) against its
natural-language specification.

The TypeScript module is shallowly embedded: the mutable module-level session
variables (accessToken, refreshToken, tokenExpiresAt, baseUrl) become an
explicit `SessionState` record that every operation takes and returns; network
I/O becomes an explicit response argument (`Option AuthResponse` /
`HttpResponse`, with `none` standing for a fetch-level failure such as a
timeout), and each operation also returns the list of HTTP requests it
dispatched so that "no network call happens" is a provable statement.
JavaScript truthiness on nullable strings (null, undefined and "" are falsy)
is modelled by `jsTruthy` / `jsOr`.
-/

namespace Seatsurfing

/-- JavaScript truthiness of a nullable string: `null`/`undefined` (here
`none`) and the empty string are falsy, every other string is truthy. -/
def jsTruthy : Option String → Bool
  | none => false
  | some s => !(s == "")

/-- JavaScript `a || b` on a nullable string `a` and a string default `b`. -/
def jsOr (a : Option String) (b : String) : String :=
  match a with
  | none => b
  | some s => if s = "" then b else s

/-- The fetch API `res.ok` predicate: status in the range 200..299. -/
def isOkStatus (status : Nat) : Bool :=
  decide (200 ≤ status ∧ status < 300)

/-- The module-level mutable session variables of index.ts
(accessToken, refreshToken, tokenExpiresAt, baseUrl). -/
structure SessionState where
  accessToken : Option String
  refreshToken : Option String
  tokenExpiresAt : Int
  baseUrl : String
deriving DecidableEq

/-- A response to one of the two auth endpoints: HTTP status, raw body text,
and the accessToken/refreshToken fields of the parsed JSON body (only read on
the 2xx path of the source). -/
structure AuthResponse where
  status : Nat
  body : String
  accessToken : String
  refreshToken : String
deriving DecidableEq

/-- A generic HTTP response as the tools see it: status, body text and
response headers (an association list). -/
structure HttpResponse where
  status : Nat
  body : String
  headers : List (String × String)
deriving DecidableEq

/-- An HTTP request as built by `apiRequest` in index.ts: method, absolute
URL, optional Authorization header value, optional JSON body (modelled as the
key/value pairs passed to JSON.stringify). -/
structure HttpRequest where
  method : String
  url : String
  authorization : Option String
  body : Option (List (String × String))
deriving DecidableEq

/-- Outcome of one tool/helper call: normal return, a thrown `new Error(msg)`,
or an exception propagated from `fetch` itself (network error / 30s timeout). -/
inductive CallResult (α : Type) where
  | ok (value : α)
  | thrown (message : String)
  | netFail
deriving DecidableEq

/-- The `url.replace(/\/$/, "")` in `login`: strips at most one trailing
slash. -/
def stripTrailingSlash (s : String) : String :=
  if s.endsWith "/" then s.dropRight 1 else s

/-- The request `apiRequest(method, endpoint, body, authenticated)` builds:
URL equals baseUrl ++ endpoint, and the bearer header is attached only when
`authenticated` is true and an access token is currently held (JS truthiness:
an empty-string token attaches no header). -/
def apiRequest (st : SessionState) (method endpoint : String)
    (body : Option (List (String × String))) (authenticated : Bool) : HttpRequest :=
  { method := method
    url := st.baseUrl ++ endpoint
    authorization :=
      if authenticated && jsTruthy st.accessToken then
        st.accessToken.map (fun t => "Bearer " ++ t)
      else none
    body := body }

/-- The `login` function of index.ts. It first assigns
`baseUrl = url.replace(/\/$/, "")`, then POSTs to /auth/login without auth.
`resp = none` models a fetch-level failure (the exception propagates after the
base URL was already updated); a non-2xx response throws
`Login failed: status body`; a 2xx response stores both tokens and sets
`tokenExpiresAt = now + 14 minutes`. Returns the final state, the call
outcome, and the dispatched requests. -/
def login (st : SessionState) (url email password organizationId : String)
    (now : Int) (resp : Option AuthResponse) :
    SessionState × CallResult Unit × List HttpRequest :=
  let st1 := { st with baseUrl := stripTrailingSlash url }
  let req := apiRequest st1 "POST" "/auth/login"
    (some [("email", email), ("password", password), ("organizationId", organizationId)]) false
  match resp with
  | none => (st1, CallResult.netFail, [req])
  | some r =>
    if isOkStatus r.status then
      ({ st1 with
          accessToken := some r.accessToken
          refreshToken := some r.refreshToken
          tokenExpiresAt := now + 14 * 60 * 1000 },
        CallResult.ok (), [req])
    else
      (st1, CallResult.thrown ("Login failed: " ++ toString r.status ++ " " ++ r.body), [req])

/-- The `ensureAuthenticated` function of index.ts. `now` models the
`Date.now()` read in the refresh guard and `nowAfter` the second `Date.now()`
read when storing the renewed expiry. A falsy (absent or empty) access token
throws the not-authenticated error; within the 60s safety margin the function
returns at once with no request; otherwise one silent refresh is attempted,
whose failure clears both tokens and throws. -/
def ensureAuthenticated (st : SessionState) (now nowAfter : Int)
    (resp : Option AuthResponse) :
    SessionState × CallResult Unit × List HttpRequest :=
  if jsTruthy st.accessToken = false then
    (st, CallResult.thrown "Not authenticated - please login first", [])
  else if st.tokenExpiresAt - 60000 < now ∧ jsTruthy st.refreshToken = true then
    let req := apiRequest st "POST" "/auth/refresh"
      (some [("refreshToken", st.refreshToken.getD "")]) false
    match resp with
    | none => (st, CallResult.netFail, [req])
    | some r =>
      if isOkStatus r.status then
        ({ st with
            accessToken := some r.accessToken
            refreshToken := some r.refreshToken
            tokenExpiresAt := nowAfter + 14 * 60 * 1000 },
          CallResult.ok (), [req])
      else
        ({ st with accessToken := none, refreshToken := none },
          CallResult.thrown "Token refresh failed - please login again", [req])
  else
    (st, CallResult.ok (), [])

/-- The `loadConfig` function: the config file is re-read on every call; a
missing file or a JSON.parse failure yields the empty object. The file system
read is modelled by `configFile : Option String` (current file content, `none`
when absent or unreadable) and JSON parsing by the `parseConfig` argument
(`none` models a parse exception). -/
def loadConfig (parseConfig : String → Option (List (String × String)))
    (configFile : Option String) : List (String × String) :=
  match configFile with
  | none => []
  | some content =>
    match parseConfig content with
    | none => []
    | some entries => entries

/-- The `getCredential(key, envVar)` function:
`process.env[envVar] || config[key] || ""` over a freshly loaded config. -/
def getCredential (parseConfig : String → Option (List (String × String)))
    (configFile : Option String) (env : String → Option String)
    (key envVar : String) : String :=
  jsOr (env envVar) (jsOr (List.lookup key (loadConfig parseConfig configFile)) "")

/-- The call-site composition in `createLoginTool`:
`String(params.x || getCredential(key, envVar))`, with the caller-supplied
parameter modelled as `Option String`. -/
def resolveCredential (caller : Option String)
    (parseConfig : String → Option (List (String × String)))
    (configFile : Option String) (env : String → Option String)
    (key envVar : String) : String :=
  jsOr caller (getCredential parseConfig configFile env key envVar)

/-- The `loadSpacesCache` function: a missing cache file or a JSON.parse
failure yields the empty cache object; the function is total (the source wraps
everything in try/catch). The parsed cache type is abstract (`β`) with a
distinguished empty object. -/
def loadSpacesCache (β : Type) (parseCache : String → Option β) (empty : β)
    (cacheFile : Option String) : β :=
  match cacheFile with
  | none => empty
  | some content =>
    match parseCache content with
    | none => empty
    | some cache => cache

/-- The `input.includes("T")` test of `parseDateTime`. -/
def includesT (s : String) : Bool :=
  s.data.any (fun c => c == 'T')

/-- One of the two regexes of `parseDateTime`, namely
`^(\d{4})S(\d{2})S(\d{2}) (\d{2}):(\d{2})(?::(\d{2}))?$` with separator `S`
(`-` for the first format, `/` for the second). Returns the capture groups
(year, month, day, hour, minute, optional seconds) on a match. -/
def matchHuman (sep : Char) : List Char → Option (String × String × String × String × String × Option String)
  | [y1, y2, y3, y4, a1, m1, m2, a2, d1, d2, sp, h1, h2, k1, n1, n2] =>
    if y1.isDigit && y2.isDigit && y3.isDigit && y4.isDigit && (a1 == sep) &&
        m1.isDigit && m2.isDigit && (a2 == sep) && d1.isDigit && d2.isDigit &&
        (sp == ' ') && h1.isDigit && h2.isDigit && (k1 == ':') && n1.isDigit && n2.isDigit then
      some (String.mk [y1, y2, y3, y4], String.mk [m1, m2], String.mk [d1, d2],
        String.mk [h1, h2], String.mk [n1, n2], none)
    else none
  | [y1, y2, y3, y4, a1, m1, m2, a2, d1, d2, sp, h1, h2, k1, n1, n2, k2, s1, s2] =>
    if y1.isDigit && y2.isDigit && y3.isDigit && y4.isDigit && (a1 == sep) &&
        m1.isDigit && m2.isDigit && (a2 == sep) && d1.isDigit && d2.isDigit &&
        (sp == ' ') && h1.isDigit && h2.isDigit && (k1 == ':') && n1.isDigit && n2.isDigit &&
        (k2 == ':') && s1.isDigit && s2.isDigit then
      some (String.mk [y1, y2, y3, y4], String.mk [m1, m2], String.mk [d1, d2],
        String.mk [h1, h2], String.mk [n1, n2], some (String.mk [s1, s2]))
    else none
  | _ => none

/-- The template string
`y-m-dTh:min:sec.000Z` built from the capture groups, with seconds defaulting
to `00` exactly as the destructuring `sec = "00"` does. -/
def renderIso (g : String × String × String × String × String × Option String) : String :=
  g.1 ++ "-" ++ g.2.1 ++ "-" ++ g.2.2.1 ++ "T" ++ g.2.2.2.1 ++ ":" ++ g.2.2.2.2.1 ++ ":" ++
    (g.2.2.2.2.2.getD "00") ++ ".000Z"

/-- The `parseDateTime` function of index.ts: inputs containing `T` with
length at least 16 pass through; otherwise the dash format then the slash
format are tried; anything else passes through unchanged. -/
def parseDateTime (input : String) : String :=
  if includesT input ∧ 16 ≤ input.length then input
  else
    match matchHuman '-' input.data with
    | some g => renderIso g
    | none =>
      match matchHuman '/' input.data with
      | some g => renderIso g
      | none => input

/-- Modelled from the spec: the optional fractional-seconds part of a
machine-readable ISO timestamp after the seconds, `[.mmm][Z]`. -/
def isoFracTail : List Char → Bool
  | [] => true
  | ['Z'] => true
  | '.' :: f1 :: f2 :: f3 :: rest =>
    f1.isDigit && f2.isDigit && f3.isDigit && (rest.isEmpty || rest == ['Z'])
  | _ => false

/-- Modelled from the spec: the optional part of a machine-readable ISO
timestamp after `YYYY-MM-DDTHH:MM`, namely `[:SS[.mmm]][Z]`. -/
def isoTail : List Char → Bool
  | [] => true
  | ['Z'] => true
  | ':' :: s1 :: s2 :: rest => s1.isDigit && s2.isDigit && isoFracTail rest
  | _ => false

/-- Modelled from the spec: character-level shape of a machine-readable ISO
timestamp, `YYYY-MM-DDTHH:MM` followed by an `isoTail`. -/
def isoCore : List Char → Bool
  | y1 :: y2 :: y3 :: y4 :: c1 :: m1 :: m2 :: c2 :: d1 :: d2 :: tc :: hh1 :: hh2 :: cc :: n1 :: n2 :: rest =>
    y1.isDigit && y2.isDigit && y3.isDigit && y4.isDigit && (c1 == '-') &&
      m1.isDigit && m2.isDigit && (c2 == '-') && d1.isDigit && d2.isDigit &&
      (tc == 'T') && hh1.isDigit && hh2.isDigit && (cc == ':') && n1.isDigit && n2.isDigit &&
      isoTail rest
  | _ => false

/-- Modelled from the spec: a full machine-readable ISO timestamp
`YYYY-MM-DDTHH:MM[:SS[.mmm]][Z]` (the claim quantifies over already-ISO
inputs; this predicate formalizes that class). -/
def isMachineIsoTimestamp (s : String) : Bool :=
  isoCore s.data

/-- A raw location object as returned by GET /location/ (id, name, and any
further fields, which the cache refresh projects away). -/
structure RawLocation where
  id : String
  name : String
  extra : List (String × String)
deriving DecidableEq

/-- A cached space entry, the `{id, name}` projection persisted in
spaces.json. -/
structure Space where
  id : String
  name : String
deriving DecidableEq

/-- A raw space object as returned by GET /location/id/space/ (id, name, and
any further fields). -/
structure RawSpace where
  id : String
  name : String
  extra : List (String × String)
deriving DecidableEq

/-- The response to one per-location space fetch during the cache refresh:
HTTP status plus the parsed JSON array (only read when the status is 2xx). -/
structure SpacesResponse where
  status : Nat
  spaces : List RawSpace
deriving DecidableEq

/-- The snapshot assembled and persisted by seatsurfing_refresh_spaces:
`updated_at`, the projected location list, and the per-location space lists
keyed by location id (a JS object, modelled as an association list). -/
structure CacheSnapshot where
  updated_at : String
  locations : List Space
  spaces : List (String × List Space)
deriving DecidableEq

/-- The loop of `createRefreshSpacesTool`: for each location the space list is
fetched; only when the response is 2xx (`spaceRes.ok`) is an entry recorded
under the location id, holding the `{id, name}` projections. -/
def refreshSpacesMap (fetch : String → SpacesResponse) : List RawLocation → List (String × List Space)
  | [] => []
  | loc :: rest =>
    if isOkStatus (fetch loc.id).status then
      (loc.id, (fetch loc.id).spaces.map (fun s => { id := s.id, name := s.name })) ::
        refreshSpacesMap fetch rest
    else
      refreshSpacesMap fetch rest

/-- The snapshot assembled by seatsurfing_refresh_spaces before it is passed
to `saveSpacesCache`. -/
def refreshSnapshot (nowIso : String) (locations : List RawLocation)
    (fetch : String → SpacesResponse) : CacheSnapshot :=
  { updated_at := nowIso
    locations := locations.map (fun l => { id := l.id, name := l.name })
    spaces := refreshSpacesMap fetch locations }

/-- A space entry of the availability endpoint response:
`{id, name, available}`. -/
structure AvailSpace where
  id : String
  name : String
  available : Bool
deriving DecidableEq

/-- The `spaces.filter(s => s.available)` of `createCheckAvailabilityTool`. -/
def availableOf (spaces : List AvailSpace) : List AvailSpace :=
  spaces.filter (fun s => s.available)

/-- The `spaces.filter(s => !s.available)` of `createCheckAvailabilityTool`. -/
def occupiedOf (spaces : List AvailSpace) : List AvailSpace :=
  spaces.filter (fun s => !s.available)

/-- The lines array built by `createCheckAvailabilityTool`: the AVAILABLE
header with count, a name/id line per available space, the OCCUPIED header
with count, and a name-only line per occupied space. -/
def checkAvailabilityLines (spaces : List AvailSpace) : List String :=
  ["AVAILABLE (" ++ toString (availableOf spaces).length ++ "):"]
    ++ (availableOf spaces).map (fun s => "\t" ++ s.name ++ "\t" ++ s.id)
    ++ ["OCCUPIED (" ++ toString (occupiedOf spaces).length ++ "):"]
    ++ (occupiedOf spaces).map (fun s => "\t" ++ s.name)

/-- The text returned by the availability tool: `lines.join("\n")`. -/
def checkAvailabilityText (spaces : List AvailSpace) : String :=
  String.intercalate "\n" (checkAvailabilityLines spaces)

/-- Character-list prefix test, used to define substring occurrence. -/
def leadsWith : List Char → List Char → Bool
  | _, [] => true
  | [], _ => false
  | a :: as, b :: bs => a == b && leadsWith as bs

/-- Substring occurrence on character lists: does `needle` occur contiguously
inside `hay`? -/
def occursIn (hay needle : List Char) : Bool :=
  match hay with
  | [] => needle.isEmpty
  | _ :: rest => leadsWith hay needle || occursIn rest needle

/-- The response-status handling of `createBookingTool`: any status other than
exactly 201 throws `Booking failed: status body`; on 201 the booking id is the
X-Object-ID response header, defaulting to `created` (JS `||`). -/
def createBookingOutcome (resp : HttpResponse) : CallResult String :=
  if resp.status ≠ 201 then
    CallResult.thrown ("Booking failed: " ++ toString resp.status ++ " " ++ resp.body)
  else
    CallResult.ok ("Booked: " ++ jsOr (List.lookup "X-Object-ID" resp.headers) "created")

/-- A session that already holds tokens from an earlier login, used to probe
what a failed login leaves behind. -/
def priorSession : SessionState :=
  { accessToken := some "oldAccess", refreshToken := some "oldRefresh",
    tokenExpiresAt := 12345, baseUrl := "http://old" }

/-- A rejected login response (HTTP 401). -/
def rejectedLogin : AuthResponse :=
  { status := 401, body := "invalid credentials", accessToken := "", refreshToken := "" }

/-- A session whose access token is the empty string: in TypeScript this value
is non-null yet falsy. -/
def emptyTokenSession : SessionState :=
  { accessToken := some "", refreshToken := some "r", tokenExpiresAt := 10000000, baseUrl := "" }

/-- A session holding a far-from-expiry valid token. -/
def freshSession : SessionState :=
  { accessToken := some "tok", refreshToken := some "ref", tokenExpiresAt := 10000000,
    baseUrl := "http://x" }

/-- A session whose token is past the refresh margin. -/
def staleSession : SessionState :=
  { accessToken := some "tokA", refreshToken := some "tokR", tokenExpiresAt := 0,
    baseUrl := "http://x" }

/-- A rejected refresh response (HTTP 401). -/
def rejectedRefresh : AuthResponse :=
  { status := 401, body := "stale refresh token", accessToken := "", refreshToken := "" }

/-- An environment holding a value for the variable EV only. -/
def envWithValue : String → Option String :=
  fun v => if v = "EV" then some "envval" else none

/-- A config-file parse yielding a single entry for the key k. -/
def parseWithEntry : String → Option (List (String × String)) :=
  fun _ => some [("k", "fileval")]

/-- A single location whose space fetch will fail. -/
def lonelyLocation : RawLocation := { id := "L1", name := "HQ", extra := [] }

/-- A fetch whose every response is HTTP 500. -/
def failingFetch : String → SpacesResponse := fun _ => { status := 500, spaces := [] }

/-- Two locations for the refresh witness: L1 fetches fine, L2 fails. -/
def mixedLocations : List RawLocation :=
  [{ id := "L1", name := "HQ", extra := [] }, { id := "L2", name := "Annex", extra := [] }]

/-- A fetch that answers 200 with one space for L1 and 503 otherwise. -/
def mixedFetch : String → SpacesResponse :=
  fun lid =>
    if lid = "L1" then { status := 200, spaces := [{ id := "S1", name := "Desk 1", extra := [] }] }
    else { status := 503, spaces := [] }

/-- The availability response of the spec example: five spaces with available
flags [T, F, T, T, F] and identifiers 1..5 in order. -/
def availabilityExample : List AvailSpace :=
  [{ id := "1", name := "A", available := true },
   { id := "2", name := "B", available := false },
   { id := "3", name := "C", available := true },
   { id := "4", name := "D", available := true },
   { id := "5", name := "E", available := false }]

/-- An availability response with a single occupied space whose identifier is
the string X1. -/
def singleOccupied : List AvailSpace :=
  [{ id := "X1", name := "Desk", available := false }]

/-! Helper lemmas shared by several developments. -/

theorem jsOr_of_falsy (a : Option String) (b : String) (h : jsTruthy a = false) :
    jsOr a b = b := by
  cases a with
  | none => rfl
  | some s =>
    have hs : s = "" := by simpa [jsTruthy] using h
    simp [jsOr, hs]

theorem jsOr_some_ne (v b : String) (hv : v ≠ "") : jsOr (some v) b = v := by
  simp [jsOr, hv]

/-! C9 — entity-cache loading. -/

/-- C9: for every cache-file state that is absent, or present but not
parseable as JSON, `loadSpacesCache` returns the empty cache object; the
function is total, so it never raises. -/
theorem load_cache_missing_or_unparsable (β : Type) (parseCache : String → Option β)
    (empty : β) :
    loadSpacesCache β parseCache empty none = empty ∧
    (∀ content, parseCache content = none →
      loadSpacesCache β parseCache empty (some content) = empty) := by
  refine ⟨rfl, ?_⟩
  intro content hc
  simp [loadSpacesCache, hc]

/-- Witness for C9: evaluated at a concrete always-failing parse and the
content string not-json. -/
theorem load_cache_missing_or_unparsable_witness :
    loadSpacesCache (List (String × String)) (fun _ => none) [] none = [] ∧
    loadSpacesCache (List (String × String)) (fun _ => none) [] (some "not-json") = [] :=
  ⟨(load_cache_missing_or_unparsable (List (String × String)) (fun _ => none) []).1,
   (load_cache_missing_or_unparsable (List (String × String)) (fun _ => none) []).2 "not-json" rfl⟩

/-! C6 — booking creation requires exactly HTTP 201. -/

/-- C6: seatsurfing_create_booking succeeds if and only if the response
status is exactly 201; every other status (including other 2xx values) throws
an error carrying the status and the response body verbatim. -/
theorem booking_requires_201 (resp : HttpResponse) :
    ((∃ v, createBookingOutcome resp = CallResult.ok v) ↔ resp.status = 201) ∧
    (resp.status ≠ 201 →
      createBookingOutcome resp =
        CallResult.thrown ("Booking failed: " ++ toString resp.status ++ " " ++ resp.body)) := by
  by_cases h : resp.status = 201
  · constructor
    · simp [createBookingOutcome, h]
    · intro hc
      exact absurd h hc
  · constructor
    · simp [createBookingOutcome, h]
    · intro _
      simp [createBookingOutcome, h]

/-- Witness for C6: a 200 response (2xx but not 201) is rejected with the
status and body in the error, and a 201 response succeeds. -/
theorem booking_requires_201_witness :
    (200 : Nat) ≠ 201 ∧
    createBookingOutcome { status := 200, body := "ok", headers := [] } =
      CallResult.thrown ("Booking failed: " ++ toString (200 : Nat) ++ " " ++ "ok") ∧
    (∃ v, createBookingOutcome { status := 201, body := "", headers := [("X-Object-ID", "b1")] } =
      CallResult.ok v) :=
  ⟨by decide,
   (booking_requires_201 { status := 200, body := "ok", headers := [] }).2 (by decide),
   (booking_requires_201 { status := 201, body := "", headers := [("X-Object-ID", "b1")] }).1.mpr rfl⟩

/-! C5 — credential resolution priority. -/

/-- C5: for each credential field, resolution returns the caller-supplied
value when present and non-empty; else the environment variable when present
and non-empty (in particular the environment overrides the config file); else
the config-file value when present and non-empty, the file being re-read on
every call (it enters as an explicit argument); else the empty string. The
function is total, so resolution never fails. -/
theorem credential_resolution_priority
    (parseConfig : String → Option (List (String × String))) (configFile : Option String)
    (env : String → Option String) (key envVar : String) (caller : Option String) :
    (∀ v, caller = some v → v ≠ "" →
      resolveCredential caller parseConfig configFile env key envVar = v) ∧
    (jsTruthy caller = false → ∀ v, env envVar = some v → v ≠ "" →
      resolveCredential caller parseConfig configFile env key envVar = v) ∧
    (jsTruthy caller = false → jsTruthy (env envVar) = false →
      ∀ v, List.lookup key (loadConfig parseConfig configFile) = some v → v ≠ "" →
      resolveCredential caller parseConfig configFile env key envVar = v) ∧
    (jsTruthy caller = false → jsTruthy (env envVar) = false →
      jsTruthy (List.lookup key (loadConfig parseConfig configFile)) = false →
      resolveCredential caller parseConfig configFile env key envVar = "") := by
  refine ⟨?_, ?_, ?_, ?_⟩
  · intro v hc hv
    subst hc
    unfold resolveCredential
    exact jsOr_some_ne v _ hv
  · intro hc v he hv
    unfold resolveCredential getCredential
    rw [jsOr_of_falsy _ _ hc, he]
    exact jsOr_some_ne v _ hv
  · intro hc he v hk hv
    unfold resolveCredential getCredential
    rw [jsOr_of_falsy _ _ hc, jsOr_of_falsy _ _ he, hk]
    exact jsOr_some_ne v _ hv
  · intro hc he hk
    unfold resolveCredential getCredential
    rw [jsOr_of_falsy _ _ hc, jsOr_of_falsy _ _ he, jsOr_of_falsy _ _ hk]

/-- Witness for C5: with a caller value it wins; with none, an environment
value beats a present config-file value; with neither, the config file is
used; with nothing anywhere, the empty string results. -/
theorem credential_resolution_priority_witness :
    resolveCredential (some "callerval") parseWithEntry (some "cfg") envWithValue "k" "EV" = "callerval" ∧
    resolveCredential none parseWithEntry (some "cfg") envWithValue "k" "EV" = "envval" ∧
    resolveCredential none parseWithEntry (some "cfg") (fun _ => none) "k" "EV" = "fileval" ∧
    resolveCredential none (fun _ => none) none (fun _ => none) "k" "EV" = "" :=
  ⟨(credential_resolution_priority parseWithEntry (some "cfg") envWithValue "k" "EV"
      (some "callerval")).1 "callerval" rfl (by decide),
   (credential_resolution_priority parseWithEntry (some "cfg") envWithValue "k" "EV" none).2.1
      rfl "envval" rfl (by decide),
   (credential_resolution_priority parseWithEntry (some "cfg") (fun _ => none) "k" "EV" none).2.2.1
      rfl rfl "fileval" rfl (by decide),
   (credential_resolution_priority (fun _ => none) none (fun _ => none) "k" "EV" none).2.2.2
      rfl rfl rfl⟩

/-! C2 — failed login: error carries status and body, but the previously
stored tokens are NOT cleared, so the session is not forced to
Unauthenticated. -/

/-- C2 counterexample: a login rejected with HTTP 401 performed from a session
that already held tokens leaves the old access token in place, so the session
state afterwards is not Unauthenticated, contradicting the claim. -/
theorem login_failure_cex :
    isOkStatus rejectedLogin.status = false ∧
    (login priorSession "http://new" "e" "p" "org" 0 (some rejectedLogin)).1.accessToken =
      some "oldAccess" ∧
    ¬((login priorSession "http://new" "e" "p" "org" 0 (some rejectedLogin)).1.accessToken = none ∧
      (login priorSession "http://new" "e" "p" "org" 0 (some rejectedLogin)).1.refreshToken = none) := by
  refine ⟨rfl, rfl, ?_⟩
  intro h
  cases h.1

/-- C2 as amended: on a non-2xx login response the call fails with an error
carrying the HTTP status and the response body, and the stored access token,
refresh token and expiry are left exactly as they were (hence the session is
Unauthenticated afterwards only if it already was before the call). -/
theorem login_failure_error_tokens_unchanged (st : SessionState)
    (url email password organizationId : String) (now : Int) (r : AuthResponse)
    (hfail : isOkStatus r.status = false) :
    (login st url email password organizationId now (some r)).2.1 =
      CallResult.thrown ("Login failed: " ++ toString r.status ++ " " ++ r.body) ∧
    (login st url email password organizationId now (some r)).1.accessToken = st.accessToken ∧
    (login st url email password organizationId now (some r)).1.refreshToken = st.refreshToken ∧
    (login st url email password organizationId now (some r)).1.tokenExpiresAt = st.tokenExpiresAt := by
  simp [login, hfail]

/-- Witness for C2 (amended): evaluated at the concrete rejected login. -/
theorem login_failure_error_tokens_unchanged_witness :
    (login priorSession "http://new" "e" "p" "org" 0 (some rejectedLogin)).2.1 =
      CallResult.thrown ("Login failed: " ++ toString rejectedLogin.status ++ " " ++ rejectedLogin.body) ∧
    (login priorSession "http://new" "e" "p" "org" 0 (some rejectedLogin)).1.accessToken =
      priorSession.accessToken :=
  ⟨(login_failure_error_tokens_unchanged priorSession "http://new" "e" "p" "org" 0 rejectedLogin
      (by decide)).1,
   (login_failure_error_tokens_unchanged priorSession "http://new" "e" "p" "org" 0 rejectedLogin
      (by decide)).2.1⟩

/-! C10 — frame effect of a failed login. -/

/-- C10: every call to login first sets the module base URL to the argument
with one trailing slash stripped (the dispatched login request itself already
uses the new base), so when the login fails (non-2xx response or fetch-level
network error) the base URL keeps the new value while the previously stored
access token, refresh token and expiry are unchanged; a later authenticated
request therefore combines the old bearer token with the new base URL. -/
theorem login_failure_frame (st : SessionState)
    (url email password organizationId : String) (now : Int) (resp : Option AuthResponse)
    (hfail : resp = none ∨ ∃ r, resp = some r ∧ isOkStatus r.status = false) :
    (login st url email password organizationId now resp).1.baseUrl = stripTrailingSlash url ∧
    (login st url email password organizationId now resp).1.accessToken = st.accessToken ∧
    (login st url email password organizationId now resp).1.refreshToken = st.refreshToken ∧
    (login st url email password organizationId now resp).1.tokenExpiresAt = st.tokenExpiresAt ∧
    (∀ req, req ∈ (login st url email password organizationId now resp).2.2 →
      req.url = stripTrailingSlash url ++ "/auth/login") ∧
    (∀ method endpoint body,
      (apiRequest (login st url email password organizationId now resp).1 method endpoint body true).url =
        stripTrailingSlash url ++ endpoint ∧
      (apiRequest (login st url email password organizationId now resp).1 method endpoint body true).authorization =
        (if jsTruthy st.accessToken then st.accessToken.map (fun t => "Bearer " ++ t) else none)) := by
  rcases hfail with hnone | ⟨r, hr, hfail⟩
  · subst hnone
    refine ⟨rfl, rfl, rfl, rfl, ?_, ?_⟩
    · intro req hreq
      simp only [login, List.mem_singleton] at hreq
      subst hreq
      rfl
    · intro method endpoint body
      exact ⟨rfl, rfl⟩
  · subst hr
    refine ⟨?_, ?_, ?_, ?_, ?_, ?_⟩
    · simp [login, hfail]
    · simp [login, hfail]
    · simp [login, hfail]
    · simp [login, hfail]
    · intro req hreq
      simp only [login, hfail, Bool.false_eq_true, if_false, List.mem_singleton] at hreq
      subst hreq
      rfl
    · intro method endpoint body
      constructor
      · simp [login, hfail, apiRequest]
      · simp [login, hfail, apiRequest]

/-- Witness for C10: a login against http new slash rejected with HTTP 401,
issued from a session holding tokens: the base URL becomes the stripped new
URL while the old access token survives. -/
theorem login_failure_frame_witness :
    (login priorSession "http://new/" "e" "p" "org" 0 (some rejectedLogin)).1.baseUrl =
      stripTrailingSlash "http://new/" ∧
    (login priorSession "http://new/" "e" "p" "org" 0 (some rejectedLogin)).1.accessToken =
      some "oldAccess" :=
  ⟨(login_failure_frame priorSession "http://new/" "e" "p" "org" 0 (some rejectedLogin)
      (Or.inr ⟨rejectedLogin, rfl, by decide⟩)).1,
   (login_failure_frame priorSession "http://new/" "e" "p" "org" 0 (some rejectedLogin)
      (Or.inr ⟨rejectedLogin, rfl, by decide⟩)).2.1⟩

/-! C3 — valid token: no refresh, no state change. The claim as frozen says
non-null access token; the source tests JavaScript truthiness, so an
empty-string token (non-null) makes the call throw instead of returning. -/

/-- C3 counterexample: a session whose access token is the empty string (a
non-null value) and whose expiry is far away satisfies the claim hypotheses,
yet ensureAuthenticated throws the not-authenticated error rather than
returning successfully. -/
theorem ensure_valid_token_cex :
    emptyTokenSession.accessToken ≠ none ∧
    (0 : Int) ≤ emptyTokenSession.tokenExpiresAt - 60000 ∧
    (ensureAuthenticated emptyTokenSession 0 0 none).2.1 =
      CallResult.thrown "Not authenticated - please login first" ∧
    (ensureAuthenticated emptyTokenSession 0 0 none).2.1 ≠ CallResult.ok () := by
  refine ⟨?_, by decide, rfl, ?_⟩
  · intro h
    cases h
  · intro h
    cases h

/-- C3 as amended: for every session state whose access token is truthy
(non-null and non-empty) and with now at most expiresAt minus the 60-second
margin, ensureAuthenticated returns successfully, dispatches no request, and
leaves the session state unchanged (with a null or empty token it instead
throws the not-authenticated error, still with no request and no state
change). -/
theorem ensure_valid_token_no_refresh (st : SessionState) (now nowAfter : Int)
    (resp : Option AuthResponse)
    (htok : jsTruthy st.accessToken = true)
    (hvalid : now ≤ st.tokenExpiresAt - 60000) :
    ensureAuthenticated st now nowAfter resp = (st, CallResult.ok (), []) := by
  have hguard : ¬(st.tokenExpiresAt - 60000 < now ∧ jsTruthy st.refreshToken = true) := by
    intro hc
    exact absurd hc.1 (not_lt.mpr hvalid)
  simp [ensureAuthenticated, htok, hguard]

/-- Witness for C3 (amended): a fresh session checked well before its expiry
margin is returned unchanged with no request dispatched. -/
theorem ensure_valid_token_no_refresh_witness :
    ensureAuthenticated freshSession 0 0 none = (freshSession, CallResult.ok (), []) :=
  ensure_valid_token_no_refresh freshSession 0 0 none (by decide) (by decide)

/-! C4 — failed silent refresh tears the session down. -/

/-- C4: whenever ensureAuthenticated attempts a silent refresh (truthy access
token, now past the 60-second margin, truthy refresh token) and the refresh
response is non-2xx, both tokens are cleared and the call throws; afterwards
every ensureAuthenticated call fails with the not-authenticated error, with no
request dispatched and no further state change, rather than silently
succeeding. -/
theorem refresh_failure_clears_session (st : SessionState) (now nowAfter : Int)
    (r : AuthResponse)
    (htok : jsTruthy st.accessToken = true)
    (hexp : st.tokenExpiresAt - 60000 < now)
    (hrt : jsTruthy st.refreshToken = true)
    (hfail : isOkStatus r.status = false) :
    (ensureAuthenticated st now nowAfter (some r)).1.accessToken = none ∧
    (ensureAuthenticated st now nowAfter (some r)).1.refreshToken = none ∧
    (ensureAuthenticated st now nowAfter (some r)).2.1 =
      CallResult.thrown "Token refresh failed - please login again" ∧
    (∀ now2 nowAfter2 resp2,
      ensureAuthenticated (ensureAuthenticated st now nowAfter (some r)).1 now2 nowAfter2 resp2 =
        ((ensureAuthenticated st now nowAfter (some r)).1,
          CallResult.thrown "Not authenticated - please login first", [])) := by
  have hout : ensureAuthenticated st now nowAfter (some r) =
      ({ st with accessToken := none, refreshToken := none },
        CallResult.thrown "Token refresh failed - please login again",
        [apiRequest st "POST" "/auth/refresh" (some [("refreshToken", st.refreshToken.getD "")]) false]) := by
    simp [ensureAuthenticated, htok, hexp, hrt, hfail]
  refine ⟨by rw [hout], by rw [hout], by rw [hout], ?_⟩
  intro now2 nowAfter2 resp2
  rw [hout]
  simp [ensureAuthenticated, jsTruthy]

/-- Witness for C4: a stale session with a 401 refresh response loses both
tokens, the call throws, and a subsequent call fails with the
not-authenticated error. -/
theorem refresh_failure_clears_session_witness :
    (ensureAuthenticated staleSession 100000 100000 (some rejectedRefresh)).1.accessToken = none ∧
    (ensureAuthenticated staleSession 100000 100000 (some rejectedRefresh)).2.1 =
      CallResult.thrown "Token refresh failed - please login again" ∧
    ensureAuthenticated (ensureAuthenticated staleSession 100000 100000 (some rejectedRefresh)).1 0 0 none =
      ((ensureAuthenticated staleSession 100000 100000 (some rejectedRefresh)).1,
        CallResult.thrown "Not authenticated - please login first", []) :=
  ⟨(refresh_failure_clears_session staleSession 100000 100000 rejectedRefresh
      (by decide) (by decide) (by decide) (by decide)).1,
   (refresh_failure_clears_session staleSession 100000 100000 rejectedRefresh
      (by decide) (by decide) (by decide) (by decide)).2.2.1,
   (refresh_failure_clears_session staleSession 100000 100000 rejectedRefresh
      (by decide) (by decide) (by decide) (by decide)).2.2.2 0 0 none⟩

/-! C1 — cache refresh and failed per-location space fetches. -/

theorem refreshSpacesMap_lookup_of_fail (fetch : String → SpacesResponse) (lid : String)
    (hfail : isOkStatus (fetch lid).status = false) :
    ∀ locs : List RawLocation, List.lookup lid (refreshSpacesMap fetch locs) = none := by
  intro locs
  induction locs with
  | nil => rfl
  | cons loc rest ih =>
    by_cases hok : isOkStatus (fetch loc.id).status = true
    · have hne : (lid == loc.id) = false := by
        by_cases he : lid = loc.id
        · rw [he] at hfail
          rw [hfail] at hok
          cases hok
        · simp [he]
      simp [refreshSpacesMap, hok, List.lookup, hne, ih]
    · simp only [Bool.not_eq_true] at hok
      simp [refreshSpacesMap, hok, ih]

theorem refreshSpacesMap_lookup_of_ok (fetch : String → SpacesResponse) (lid : String)
    (hok : isOkStatus (fetch lid).status = true) :
    ∀ locs : List RawLocation, (∃ loc, loc ∈ locs ∧ loc.id = lid) →
      List.lookup lid (refreshSpacesMap fetch locs) =
        some ((fetch lid).spaces.map (fun s => { id := s.id, name := s.name })) := by
  intro locs
  induction locs with
  | nil =>
    rintro ⟨loc, hmem, _⟩
    exact absurd hmem (List.not_mem_nil loc)
  | cons loc rest ih =>
    rintro ⟨l0, hmem, hid⟩
    by_cases he : lid = loc.id
    · have hokloc : isOkStatus (fetch loc.id).status = true := by
        rw [← he]
        exact hok
      have heq : (lid == loc.id) = true := by simp [he]
      simp only [refreshSpacesMap, hokloc, if_true]
      rw [← he]
      simp [List.lookup, heq]
    · have hrest : ∃ l, l ∈ rest ∧ l.id = lid := by
        rcases List.mem_cons.mp hmem with h0 | h0
        · have hcontra : loc.id = lid := by
            rw [← h0]
            exact hid
          exact absurd hcontra (fun hx => he hx.symm)
        · exact ⟨l0, h0, hid⟩
      have hne : (lid == loc.id) = false := by simp [he]
      by_cases hokloc : isOkStatus (fetch loc.id).status = true
      · simp only [refreshSpacesMap, hokloc, if_true]
        rw [List.lookup]
        simp only [hne]
        exact ih hrest
      · simp only [Bool.not_eq_true] at hokloc
        simp only [refreshSpacesMap, hokloc, Bool.false_eq_true, if_false]
        exact ih hrest

/-- C1 counterexample: a single location whose space fetch answers HTTP 500.
The persisted snapshot has no entry at all under that locationId key in
`spaces` (lookup yields none), not an entry with an empty space list as the
claim states. -/
theorem refresh_failed_location_cex :
    isOkStatus (failingFetch "L1").status = false ∧
    List.lookup "L1" (refreshSnapshot "2025-01-01T00:00:00.000Z" [lonelyLocation] failingFetch).spaces
      = none ∧
    List.lookup "L1" (refreshSnapshot "2025-01-01T00:00:00.000Z" [lonelyLocation] failingFetch).spaces
      ≠ some [] := by
  refine ⟨rfl, rfl, ?_⟩
  intro h
  cases h

/-- C1 as amended: during a cache refresh, a location whose space-list fetch
returns a non-2xx response is omitted from `spaces` (its locationId key is
absent from the snapshot) rather than recorded with an empty list; the refresh
is not aborted: every location whose fetch succeeded keeps its projected space
list under its key, all locations still appear in `locations`, and the
snapshot is assembled with the given timestamp and persisted. -/
theorem refresh_failed_location_omitted (fetch : String → SpacesResponse)
    (locs : List RawLocation) (nowIso : String) :
    (∀ lid, isOkStatus (fetch lid).status = false →
      List.lookup lid (refreshSnapshot nowIso locs fetch).spaces = none) ∧
    (∀ lid, isOkStatus (fetch lid).status = true → (∃ loc, loc ∈ locs ∧ loc.id = lid) →
      List.lookup lid (refreshSnapshot nowIso locs fetch).spaces =
        some ((fetch lid).spaces.map (fun s => { id := s.id, name := s.name }))) ∧
    (refreshSnapshot nowIso locs fetch).locations =
      locs.map (fun l => { id := l.id, name := l.name }) ∧
    (refreshSnapshot nowIso locs fetch).updated_at = nowIso := by
  refine ⟨?_, ?_, rfl, rfl⟩
  · intro lid hfail
    exact refreshSpacesMap_lookup_of_fail fetch lid hfail locs
  · intro lid hok hex
    exact refreshSpacesMap_lookup_of_ok fetch lid hok locs hex

/-- Witness for C1 (amended): two locations where L1 fetches one space with
HTTP 200 and L2 answers HTTP 503: L2 is absent from the snapshot spaces, L1
keeps its space list, and both locations appear in the location list. -/
theorem refresh_failed_location_omitted_witness :
    isOkStatus (mixedFetch "L2").status = false ∧
    List.lookup "L2" (refreshSnapshot "t0" mixedLocations mixedFetch).spaces = none ∧
    List.lookup "L1" (refreshSnapshot "t0" mixedLocations mixedFetch).spaces =
      some ((mixedFetch "L1").spaces.map (fun s => { id := s.id, name := s.name })) ∧
    (refreshSnapshot "t0" mixedLocations mixedFetch).locations =
      mixedLocations.map (fun l => { id := l.id, name := l.name }) :=
  ⟨by decide,
   (refresh_failed_location_omitted mixedFetch mixedLocations "t0").1 "L2" (by decide),
   (refresh_failed_location_omitted mixedFetch mixedLocations "t0").2.1 "L1" (by decide)
     ⟨{ id := "L1", name := "HQ", extra := [] }, by decide, rfl⟩,
   (refresh_failed_location_omitted mixedFetch mixedLocations "t0").2.2.1⟩

/-! C7 — availability partitioning. -/

theorem availability_length_sum (spaces : List AvailSpace) :
    (availableOf spaces).length + (occupiedOf spaces).length = spaces.length := by
  induction spaces with
  | nil => rfl
  | cons s rest ih =>
    cases h : s.available <;>
      simp [availableOf, occupiedOf, List.filter_cons, h, List.length_cons] at ih ⊢ <;>
      omega

/-- C7 counterexample: for a response with a single occupied space whose
identifier is X1, the rendered report prints the occupied entry by name only,
so the identifier X1 occurs nowhere in the output text; the report does not
contain the identifiers of the occupied set, contradicting the claim. -/
theorem availability_occupied_id_unreported_cex :
    (occupiedOf singleOccupied).map (fun s => s.id) = ["X1"] ∧
    occursIn (checkAvailabilityText singleOccupied).data "X1".data = false := by
  exact ⟨rfl, by decide⟩

/-- C7 as amended: the availability check partitions the returned list by the
boolean `available` flag into an available and an occupied sublist, preserving
input order (both are order-preserving sublists, each entry lands in exactly
the part matching its flag, and the counts add up); the report carries each
part's count, the name and identifier of each available entry, but only the
name of each occupied entry. For the 5-element list with flags [T,F,T,T,F] the
available part is the 1st, 3rd and 4th entries (count 3) and the occupied part
the 2nd and 5th (count 2), with the rendered text as computed. -/
theorem availability_partition (spaces : List AvailSpace) :
    List.Sublist (availableOf spaces) spaces ∧
    List.Sublist (occupiedOf spaces) spaces ∧
    (∀ s, s ∈ availableOf spaces ↔ s ∈ spaces ∧ s.available = true) ∧
    (∀ s, s ∈ occupiedOf spaces ↔ s ∈ spaces ∧ s.available = false) ∧
    (availableOf spaces).length + (occupiedOf spaces).length = spaces.length ∧
    (availableOf availabilityExample).map (fun s => s.id) = ["1", "3", "4"] ∧
    (occupiedOf availabilityExample).map (fun s => s.id) = ["2", "5"] ∧
    (availableOf availabilityExample).length = 3 ∧
    (occupiedOf availabilityExample).length = 2 ∧
    checkAvailabilityText availabilityExample =
      "AVAILABLE (3):\n\tA\t1\n\tC\t3\n\tD\t4\nOCCUPIED (2):\n\tB\n\tE" := by
  refine ⟨List.filter_sublist spaces, List.filter_sublist spaces, ?_, ?_,
    availability_length_sum spaces, rfl, rfl, rfl, rfl, rfl⟩
  · intro s
    simp [availableOf, List.mem_filter]
  · intro s
    simp [occupiedOf, List.mem_filter]

/-! C8 — date-time normalization. -/

theorem isoCore_T_and_length (l : List Char) (h : isoCore l = true) :
    'T' ∈ l ∧ 16 ≤ l.length := by
  unfold isoCore at h
  split at h
  next y1 y2 y3 y4 c1 m1 m2 c2 d1 d2 tc hh1 hh2 cc n1 n2 rest =>
    simp only [Bool.and_eq_true, beq_iff_eq] at h
    have htc : tc = 'T' := h.1.1.1.1.1.1.2
    subst htc
    constructor
    · simp
    · simp only [List.length_cons]
      omega
  next => cases h

/-- C8: date-time normalization maps the input 2025-06-01 09:00 to the ISO
form 2025-06-01T09:00:00.000Z; every machine-readable ISO timestamp is
returned unchanged; and every input matching neither of the two accepted
human patterns (dash- or slash-separated YYYY-MM-DD HH:MM with optional :SS)
is returned unchanged. -/
theorem parseDateTime_normalization :
    parseDateTime "2025-06-01 09:00" = "2025-06-01T09:00:00.000Z" ∧
    (∀ s, isMachineIsoTimestamp s = true → parseDateTime s = s) ∧
    (∀ s, matchHuman '-' s.data = none → matchHuman '/' s.data = none →
      parseDateTime s = s) := by
  refine ⟨by decide, ?_, ?_⟩
  · intro s hs
    obtain ⟨hT, hlen⟩ := isoCore_T_and_length s.data hs
    have hinc : includesT s = true := by
      unfold includesT
      exact List.any_eq_true.mpr ⟨'T', hT, by simp⟩
    have hlen2 : 16 ≤ s.length := hlen
    unfold parseDateTime
    rw [if_pos ⟨hinc, hlen2⟩]
  · intro s h1 h2
    unfold parseDateTime
    split
    · rfl
    · rw [h1, h2]

/-- Witness for C8: the ISO string 2025-06-01T09:00:00.000Z satisfies the
machine-readable predicate and passes through unchanged, and the unmatched
input tomorrow 9am passes through unchanged. -/
theorem parseDateTime_normalization_witness :
    isMachineIsoTimestamp "2025-06-01T09:00:00.000Z" = true ∧
    parseDateTime "2025-06-01T09:00:00.000Z" = "2025-06-01T09:00:00.000Z" ∧
    parseDateTime "tomorrow 9am" = "tomorrow 9am" :=
  ⟨by decide,
   parseDateTime_normalization.2.1 "2025-06-01T09:00:00.000Z" (by decide),
   parseDateTime_normalization.2.2 "tomorrow 9am" (by decide) (by decide)⟩

end Seatsurfing
